import Mathlib

/-
Shallow embedding of the `lochnes` NES emulator core (src/src/nes.rs).

Conventions:
 - Machine integers (u8, u16, u64) are modelled as `Nat`, with explicit
   `% 2 ^ w` wherever the Rust code can overflow (release-mode wrapping
   semantics, i.e. two's-complement arithmetic modulo 2^w).
 - Signed types (i8, i16) are modelled as `Int`; casts sign-extend and
   `as u16` reduces modulo 2^16.
 - Fixed-size byte arrays (`[u8; N]`) are modelled as `List Nat` of
   length N; `Vec<u8>` as `List Nat`.
 - `unimplemented!` panics are modelled as `Except.error` carrying a
   `NesError` constructor holding exactly the data that the Rust panic
   message interpolates into its format string.
 - `bitflags` values are modelled as the raw `Nat` bit pattern;
   `from_bits_truncate` masks to the declared bits, `set` is bitwise
   or / and-not, `contains` compares the masked bits.
-/

/-- Errors modelling the `unimplemented!` panics in nes.rs. Each
constructor carries the data interpolated into the corresponding panic
message and nothing else. -/
inductive NesError where
  /-- Panic message: Unhandled mapper: {mapper} -/
  | unhandledMapper (mapper : Nat)
  /-- Panic message: Unhandled read from address: 0x{addr:X} -/
  | unhandledRead (addr : Nat)
  /-- Panic message: Unhandled write to address: 0x{addr:X} -/
  | unhandledWrite (addr : Nat)
  /-- Panic message: Unhandled opcode: 0x{opcode:X} -/
  | unhandledOpcode (opcode : Nat)
  deriving DecidableEq, Repr

/-- iNES header, as used by nes.rs. Modelled from the spec: the `rom`
module of the repository is not under src/, so only the fields that
nes.rs actually reads (`header.mapper`) plus the PRG blob are included,
following spec section 3 (Rom data model). -/
structure RomHeader where
  mapper : Nat
  deriving DecidableEq, Repr

/-- Cartridge ROM. Modelled from the spec: the `rom` module is not under
src/; nes.rs uses only `rom.header` and `rom.prg_rom`. -/
structure Rom where
  header : RomHeader
  prg_rom : List Nat
  deriving DecidableEq, Repr

/-- CpuFlags bit constants (bitflags block in nes.rs). -/
def CpuFlags.C : Nat := 1 <<< 0
def CpuFlags.Z : Nat := 1 <<< 1
def CpuFlags.I : Nat := 1 <<< 2
def CpuFlags.D : Nat := 1 <<< 3
def CpuFlags.B : Nat := 1 <<< 4
def CpuFlags.U : Nat := 1 <<< 5
def CpuFlags.V : Nat := 1 <<< 6
def CpuFlags.N : Nat := 1 <<< 7

/-- PpuStatusFlags bit constants (bitflags block in nes.rs). -/
def PpuStatusFlags.SPRITE_OVERFLOW : Nat := 1 <<< 5
def PpuStatusFlags.SPRITE_ZERO_HIT : Nat := 1 <<< 6
def PpuStatusFlags.VBLANK_STARTED : Nat := 1 <<< 7

/-- bitflags `contains`: all bits of the mask are present. -/
def containsFlags (bits mask : Nat) : Bool := bits &&& mask == mask

/-- bitflags `set`: set or clear the masked bits (u8-sized). -/
def setBits (bits mask : Nat) (value : Bool) : Nat :=
  if value then bits ||| mask else bits &&& (mask ^^^ 0xFF)

/-- CPU register file (struct Cpu in nes.rs). `p` is the raw flag byte. -/
structure Cpu where
  pc : Nat
  a : Nat
  x : Nat
  y : Nat
  s : Nat
  p : Nat
  deriving DecidableEq, Repr

/-- Cpu::new: pc=0, a=x=y=0, s=0xFD, p=CpuFlags::from_bits_truncate(0x34)
(CpuFlags declares all 8 bits, so truncation keeps 0x34). -/
def Cpu.new : Cpu :=
  { pc := 0, a := 0, x := 0, y := 0, s := 0xFD, p := 0x34 }

/-- Cpu::set_flags (delegates to bitflags set; the TODO about protecting
B and U is not implemented in the source). -/
def Cpu.set_flags (cpu : Cpu) (flags : Nat) (value : Bool) : Cpu :=
  { cpu with p := setBits cpu.p flags value }

/-- PPU state (struct Ppu in nes.rs). Flag registers are raw bytes. -/
structure Ppu where
  cycle : Nat
  ctrl : Nat
  mask : Nat
  status : Nat
  oam_addr : Nat
  scroll : Nat
  addr : Nat
  scroll_addr_latch : Bool
  pattern_tables : List (List Nat)
  nametables : List (List Nat)
  oam : List Nat
  deriving DecidableEq, Repr

/-- Ppu::new. -/
def Ppu.new : Ppu :=
  { cycle := 0, ctrl := 0, mask := 0, status := 0, oam_addr := 0,
    scroll := 0, addr := 0, scroll_addr_latch := false,
    pattern_tables := List.replicate 2 (List.replicate 0x1000 0),
    nametables := List.replicate 4 (List.replicate 0x0400 0),
    oam := List.replicate 0x0100 0 }

/-- Ppu::set_ppuctrl: `PpuCtrlFlags::from_bits_truncate(value)`; the
PpuCtrlFlags block declares all 8 bits, so truncation is `&&& 0xFF`. -/
def Ppu.set_ppuctrl (ppu : Ppu) (value : Nat) : Ppu :=
  { ppu with ctrl := value &&& 0xFF }

/-- Ppu::set_ppumask: PpuMaskFlags also declares all 8 bits. -/
def Ppu.set_ppumask (ppu : Ppu) (value : Nat) : Ppu :=
  { ppu with mask := value &&& 0xFF }

/-- Ppu::write_ppuscroll, translated verbatim. Note that in the
`else` branch (first write, latch false) the source computes
`let scroll_lo = self.scroll as u16;` — it re-reads `self.scroll`
instead of using `value`. -/
def Ppu.write_ppuscroll (ppu : Ppu) (value : Nat) : Ppu :=
  let latch := ppu.scroll_addr_latch
  let scroll2 :=
    if latch then
      let scroll_lo := ppu.scroll &&& 0x00FF
      let scroll_hi := (value <<< 8)
      scroll_lo ||| scroll_hi
    else
      let scroll_lo := ppu.scroll
      let scroll_hi := ppu.scroll &&& 0xFF00
      scroll_lo ||| scroll_hi
  { ppu with scroll := scroll2, scroll_addr_latch := !latch }

/-- Ppu::ppustatus: returns the raw status bits. -/
def Ppu.ppustatus (ppu : Ppu) : Nat := ppu.status

/-- Decoded operations (enum Op in nes.rs). Branch offsets are the i8
operand value, modelled as `Int`. -/
inductive Op where
  | AndImm (value : Nat)
  | Beq (addr_offset : Int)
  | Bne (addr_offset : Int)
  | Bpl (addr_offset : Int)
  | Cld
  | DecZero (zero_page : Nat)
  | Dey
  | JmpAbs (addr : Nat)
  | Jsr (addr : Nat)
  | LdaAbs (addr : Nat)
  | LdaImm (value : Nat)
  | LdxImm (value : Nat)
  | LdyImm (value : Nat)
  | Sei
  | StaAbs (addr : Nat)
  | StaZero (zero_page : Nat)
  | StaIndY (target_addr_base : Nat)
  | StyZero (zero_page : Nat)
  | Txs
  deriving DecidableEq, Repr

/-- Opcode discriminants (enum Opcode, derived by EnumKind in nes.rs). -/
inductive Opcode where
  | AndImm | Beq | Bne | Bpl | Cld | DecZero | Dey | JmpAbs | Jsr
  | LdaAbs | LdaImm | LdxImm | LdyImm | Sei | StaAbs | StaZero
  | StaIndY | StyZero | Txs
  deriving DecidableEq, Repr

/-- Opcode::from_u8: the decoder table; unknown bytes panic with
`Unhandled opcode: 0x{:X}` carrying only the byte. -/
def Opcode.from_u8 (opcode : Nat) : Except NesError Opcode :=
  if opcode = 0x10 then .ok .Bpl
  else if opcode = 0x20 then .ok .Jsr
  else if opcode = 0x29 then .ok .AndImm
  else if opcode = 0x4C then .ok .JmpAbs
  else if opcode = 0x78 then .ok .Sei
  else if opcode = 0x84 then .ok .StyZero
  else if opcode = 0x85 then .ok .StaZero
  else if opcode = 0x88 then .ok .Dey
  else if opcode = 0x8D then .ok .StaAbs
  else if opcode = 0x91 then .ok .StaIndY
  else if opcode = 0x9A then .ok .Txs
  else if opcode = 0xA0 then .ok .LdyImm
  else if opcode = 0xA2 then .ok .LdxImm
  else if opcode = 0xA9 then .ok .LdaImm
  else if opcode = 0xAD then .ok .LdaAbs
  else if opcode = 0xC6 then .ok .DecZero
  else if opcode = 0xD0 then .ok .Bne
  else if opcode = 0xD8 then .ok .Cld
  else if opcode = 0xF0 then .ok .Beq
  else .error (.unhandledOpcode opcode)

/-- struct CpuStep in nes.rs: the pc before the instruction plus the
decoded op. -/
structure CpuStep where
  pc : Nat
  op : Op
  deriving DecidableEq, Repr

/-- The Nes facade: bus, RAM, CPU, PPU (struct Nes in nes.rs). -/
structure Nes where
  rom : Rom
  ram : List Nat
  cpu : Cpu
  ppu : Ppu
  deriving DecidableEq, Repr

/-- Sign extension of a byte, modelling `byte as i8` (and the
value-preserving widening `as i16`). -/
def sextI8 (b : Nat) : Int :=
  if b < 0x80 then (b : Int) else (b : Int) - 0x100

/-- Reinterpretation of a u16 as i16 (`as i16`). -/
def toI16 (x : Nat) : Int :=
  if x < 0x8000 then (x : Int) else (x : Int) - 0x10000

/-- Release-mode wrapping of an i16 intermediate into i16 range. -/
def wrapI16 (z : Int) : Int :=
  (z + 0x8000) % 0x10000 - 0x8000

/-- Cast i16 to u16 (`as u16`): two's complement modulo 2^16. -/
def i16ToU16 (z : Int) : Nat :=
  (z % 0x10000).toNat

/-- Nes::read_u8: mapper guard, then the address match
(RAM, PPUSTATUS, PRG-ROM, unhandled). -/
def Nes.read_u8 (nes : Nes) (addr : Nat) : Except NesError Nat :=
  let mapper := nes.rom.header.mapper
  if mapper ≠ 0 then .error (.unhandledMapper mapper)
  else if addr ≤ 0x07FF then
    .ok (nes.ram.getD addr 0)
  else if addr = 0x2002 then
    .ok nes.ppu.ppustatus
  else if 0x8000 ≤ addr ∧ addr ≤ 0xFFFF then
    let rom_offset := addr - 0x8000
    let mapped_addr := rom_offset % nes.rom.prg_rom.length
    .ok (nes.rom.prg_rom.getD mapped_addr 0)
  else .error (.unhandledRead addr)

/-- Nes::read_i8: `self.read_u8(addr) as i8`. -/
def Nes.read_i8 (nes : Nes) (addr : Nat) : Except NesError Int := do
  let b ← nes.read_u8 addr
  pure (sextI8 b)

/-- Nes::read_u16: little-endian pair; the `addr + 1` is a u16 addition
and hence wraps modulo 2^16. -/
def Nes.read_u16 (nes : Nes) (addr : Nat) : Except NesError Nat := do
  let lo ← nes.read_u8 addr
  let hi ← nes.read_u8 ((addr + 1) % 0x10000)
  pure (lo ||| (hi <<< 8))

/-- Nes::write_u8: mapper guard, then the address match (RAM, PPUCTRL,
PPUMASK, PPUSCROLL, PRG-ROM — which the source mutates — unhandled). -/
def Nes.write_u8 (nes : Nes) (addr value : Nat) : Except NesError Nes :=
  let mapper := nes.rom.header.mapper
  if mapper ≠ 0 then .error (.unhandledMapper mapper)
  else if addr ≤ 0x07FF then
    .ok { nes with ram := nes.ram.set addr value }
  else if addr = 0x2000 then
    .ok { nes with ppu := nes.ppu.set_ppuctrl value }
  else if addr = 0x2001 then
    .ok { nes with ppu := nes.ppu.set_ppumask value }
  else if addr = 0x2005 then
    .ok { nes with ppu := nes.ppu.write_ppuscroll value }
  else if 0x8000 ≤ addr ∧ addr ≤ 0xFFFF then
    let rom_offset := addr - 0x8000
    let mapped_addr := rom_offset % nes.rom.prg_rom.length
    .ok { nes with
          rom := { nes.rom with
                   prg_rom := nes.rom.prg_rom.set mapped_addr value } }
  else .error (.unhandledWrite addr)

/-- Nes::new_from_rom: zeroed RAM, fresh CPU and PPU, then the reset
vector at $FFFC is read and installed as pc. The reset-vector read goes
through `read_u16`, so its mapper guard runs during construction. -/
def Nes.new_from_rom (rom : Rom) : Except NesError Nes := do
  let nes : Nes :=
    { rom := rom, ram := List.replicate 0x0800 0,
      cpu := Cpu.new, ppu := Ppu.new }
  let reset_addr ← nes.read_u16 0xFFFC
  pure { nes with cpu := { nes.cpu with pc := reset_addr } }

/-- Nes::step_cpu: fetch, decode, execute one instruction; returns the
updated state together with the CpuStep record. -/
def Nes.step_cpu (nes : Nes) : Except NesError (Nes × CpuStep) := do
  let pc := nes.cpu.pc
  let opbyte ← nes.read_u8 pc
  let opcode ← Opcode.from_u8 opbyte
  match opcode with
  | .AndImm => do
      let value ← nes.read_u8 ((pc + 1) % 0x10000)
      let a := nes.cpu.a &&& value
      let cpu := { nes.cpu with a := a }
      let cpu := cpu.set_flags CpuFlags.Z (a == 0)
      let cpu := cpu.set_flags CpuFlags.N ((a &&& 0x80) != 0)
      let cpu := { cpu with pc := (pc + 2) % 0x10000 }
      pure ({ nes with cpu := cpu }, { pc := pc, op := .AndImm value })
  | .Beq => do
      let addr_offset ← nes.read_i8 ((pc + 1) % 0x10000)
      let pc_after := (pc + 2) % 0x10000
      let next_pc :=
        if containsFlags nes.cpu.p CpuFlags.Z then
          i16ToU16 (wrapI16 (toI16 pc_after + addr_offset))
        else pc_after
      let cpu := { nes.cpu with pc := next_pc }
      pure ({ nes with cpu := cpu }, { pc := pc, op := .Beq addr_offset })
  | .Bne => do
      let addr_offset ← nes.read_i8 ((pc + 1) % 0x10000)
      let pc_after := (pc + 2) % 0x10000
      let next_pc :=
        if containsFlags nes.cpu.p CpuFlags.Z then pc_after
        else i16ToU16 (wrapI16 (toI16 pc_after + addr_offset))
      let cpu := { nes.cpu with pc := next_pc }
      pure ({ nes with cpu := cpu }, { pc := pc, op := .Bne addr_offset })
  | .Bpl => do
      let addr_offset ← nes.read_i8 ((pc + 1) % 0x10000)
      let pc_after := (pc + 2) % 0x10000
      let next_pc :=
        if containsFlags nes.cpu.p CpuFlags.N then pc_after
        else i16ToU16 (wrapI16 (toI16 pc_after + addr_offset))
      let cpu := { nes.cpu with pc := next_pc }
      pure ({ nes with cpu := cpu }, { pc := pc, op := .Bpl addr_offset })
  | .Cld => do
      let cpu := nes.cpu.set_flags CpuFlags.D false
      let cpu := { cpu with pc := (pc + 1) % 0x10000 }
      pure ({ nes with cpu := cpu }, { pc := pc, op := .Cld })
  | .DecZero => do
      let zero_page ← nes.read_u8 ((pc + 1) % 0x10000)
      let addr := zero_page
      let value ← nes.read_u8 addr
      let value := (value + 0x100 - 1) % 0x100
      let nes ← nes.write_u8 addr value
      let cpu := nes.cpu.set_flags CpuFlags.Z (value == 0)
      let cpu := cpu.set_flags CpuFlags.N ((value &&& 0x80) != 0)
      let cpu := { cpu with pc := (pc + 2) % 0x10000 }
      pure ({ nes with cpu := cpu }, { pc := pc, op := .DecZero zero_page })
  | .Dey => do
      let y := (nes.cpu.y + 0x100 - 1) % 0x100
      let cpu := nes.cpu.set_flags CpuFlags.Z (y == 0)
      let cpu := cpu.set_flags CpuFlags.N ((y &&& 0x80) != 0)
      let cpu := { cpu with y := y, pc := (pc + 1) % 0x10000 }
      pure ({ nes with cpu := cpu }, { pc := pc, op := .Dey })
  | .JmpAbs => do
      let addr ← nes.read_u16 ((pc + 1) % 0x10000)
      let cpu := { nes.cpu with pc := addr }
      pure ({ nes with cpu := cpu }, { pc := pc, op := .JmpAbs addr })
  | .Jsr => do
      let addr ← nes.read_u16 ((pc + 1) % 0x10000)
      let ret_pc := (pc + 3) % 0x10000
      let push_pc := (ret_pc + 0x10000 - 1) % 0x10000
      let push_pc_hi := (0xFF00 &&& push_pc) >>> 8
      let push_pc_lo := 0x00FF &&& push_pc
      let stack_offset_hi := nes.cpu.s
      let stack_offset_lo := (nes.cpu.s + 0x100 - 1) % 0x100
      let stack_addr_hi := 0x0100 &&& stack_offset_hi
      let stack_addr_lo := 0x0100 &&& stack_offset_lo
      let nes ← nes.write_u8 stack_addr_hi push_pc_hi
      let nes ← nes.write_u8 stack_addr_lo push_pc_lo
      let cpu := { nes.cpu with s := (nes.cpu.s + 0x100 - 2) % 0x100 }
      let cpu := { cpu with pc := addr }
      pure ({ nes with cpu := cpu }, { pc := pc, op := .Jsr addr })
  | .LdaAbs => do
      let addr ← nes.read_u16 ((pc + 1) % 0x10000)
      let value ← nes.read_u8 addr
      let cpu := { nes.cpu with a := value, pc := (pc + 3) % 0x10000 }
      pure ({ nes with cpu := cpu }, { pc := pc, op := .LdaAbs addr })
  | .LdaImm => do
      let value ← nes.read_u8 ((pc + 1) % 0x10000)
      let cpu := { nes.cpu with a := value, pc := (pc + 2) % 0x10000 }
      pure ({ nes with cpu := cpu }, { pc := pc, op := .LdaImm value })
  | .LdxImm => do
      let value ← nes.read_u8 ((pc + 1) % 0x10000)
      let cpu := { nes.cpu with x := value, pc := (pc + 2) % 0x10000 }
      pure ({ nes with cpu := cpu }, { pc := pc, op := .LdxImm value })
  | .LdyImm => do
      let value ← nes.read_u8 ((pc + 1) % 0x10000)
      let cpu := { nes.cpu with y := value, pc := (pc + 2) % 0x10000 }
      pure ({ nes with cpu := cpu }, { pc := pc, op := .LdyImm value })
  | .Sei => do
      let cpu := nes.cpu.set_flags CpuFlags.I true
      let cpu := { cpu with pc := (pc + 1) % 0x10000 }
      pure ({ nes with cpu := cpu }, { pc := pc, op := .Sei })
  | .StaAbs => do
      let a := nes.cpu.a
      let addr ← nes.read_u16 ((pc + 1) % 0x10000)
      let nes ← nes.write_u8 addr a
      let cpu := { nes.cpu with pc := (pc + 3) % 0x10000 }
      pure ({ nes with cpu := cpu }, { pc := pc, op := .StaAbs addr })
  | .StaZero => do
      let a := nes.cpu.a
      let zero_page ← nes.read_u8 ((pc + 1) % 0x10000)
      let nes ← nes.write_u8 zero_page a
      let cpu := { nes.cpu with pc := (pc + 2) % 0x10000 }
      pure ({ nes with cpu := cpu }, { pc := pc, op := .StaZero zero_page })
  | .StaIndY => do
      let a := nes.cpu.a
      let y := nes.cpu.y
      let target_addr_base ← nes.read_u8 ((pc + 1) % 0x10000)
      let addr_base ← nes.read_u16 target_addr_base
      let addr := (addr_base + y) % 0x10000
      let nes ← nes.write_u8 addr a
      let cpu := { nes.cpu with pc := (pc + 2) % 0x10000 }
      pure ({ nes with cpu := cpu },
            { pc := pc, op := .StaIndY target_addr_base })
  | .StyZero => do
      let y := nes.cpu.y
      let zero_page ← nes.read_u8 ((pc + 1) % 0x10000)
      let nes ← nes.write_u8 zero_page y
      let cpu := { nes.cpu with pc := (pc + 2) % 0x10000 }
      pure ({ nes with cpu := cpu }, { pc := pc, op := .StyZero zero_page })
  | .Txs => do
      let cpu := { nes.cpu with s := nes.cpu.x, pc := (pc + 1) % 0x10000 }
      pure ({ nes with cpu := cpu }, { pc := pc, op := .Txs })

/-- Nes::step_ppu: compute frame position from the dot counter, set the
VBlank flag at scanline 240 dot 1, then advance the (u64) counter. -/
def Nes.step_ppu (nes : Nes) : Nes :=
  let cycle := nes.ppu.cycle
  let frame_cycle := cycle % 89342
  let scanline := frame_cycle / 341
  let scanline_cycle := frame_cycle % 341
  let ppu :=
    if scanline = 240 ∧ scanline_cycle = 1 then
      { nes.ppu with
        status := setBits nes.ppu.status PpuStatusFlags.VBLANK_STARTED true }
    else nes.ppu
  { nes with ppu := { ppu with cycle := (ppu.cycle + 1) % 2 ^ 64 } }

/-- Nes::step: one CPU instruction followed by three PPU dots. -/
def Nes.step (nes : Nes) : Except NesError (Nes × CpuStep) := do
  let (nes, cpu_step) ← nes.step_cpu
  let nes := nes.step_ppu
  let nes := nes.step_ppu
  let nes := nes.step_ppu
  pure (nes, cpu_step)

deriving instance DecidableEq for Except

/-- Test ROM fixture: a 16-byte PRG blob (nes.rs indexes PRG modulo its
length, so the bus mirrors it across $8000-$FFFF). Bytes 0-6 hold the
program `20 06 80 00 00 00 60` (JSR $8006; ...; RTS) visible at $8000;
indices 12/13 are read for the reset vector ($FFFC maps to
0x7FFC mod 16 = 12) and point it at $8000; index 15 (visible at $FFFF)
is 0x07. -/
def jsrTestRom : Rom :=
  { header := { mapper := 0 },
    prg_rom := [0x20, 0x06, 0x80, 0x00, 0x00, 0x00, 0x60, 0x00,
                0x00, 0x00, 0x00, 0x00, 0x00, 0x80, 0x00, 0x07] }

/-- A freshly constructed machine state over `jsrTestRom` (the fields a
`Nes::new_from_rom` call produces before the reset-vector read). -/
def zeroNes : Nes :=
  { rom := jsrTestRom, ram := List.replicate 0x0800 0,
    cpu := Cpu.new, ppu := Ppu.new }

/-- Machine state for the read_u16 wraparound witness: `zeroNes` with
RAM byte $0000 set to 0xAB. -/
def c4Nes : Nes :=
  { rom := jsrTestRom, ram := (List.replicate 0x0800 0).set 0 0xAB,
    cpu := Cpu.new, ppu := Ppu.new }


/-- ROM fixture for the branch witness: BEQ +2 at $8000 (`F0 02`),
reset vector fields at indices 12/13. -/
def c6rom : Rom :=
  { header := { mapper := 0 },
    prg_rom := [0xF0, 0x02, 0x00, 0x00, 0x00, 0x00, 0x00, 0x00,
                0x00, 0x00, 0x00, 0x00, 0x00, 0x80, 0x00, 0x00] }

/-- Machine state for the branch witness: pc at $8000 (a BEQ), flag
byte 0x36 (the reset value 0x34 with Z additionally set). -/
def c6nes : Nes :=
  { rom := c6rom, ram := List.replicate 0x0800 0,
    cpu := { pc := 0x8000, a := 0, x := 0, y := 0, s := 0xFD, p := 0x36 },
    ppu := Ppu.new }

/-- Machine state with the unknown opcode byte 0x02 at address $0000 and
pc = $0000. -/
def c8nesA : Nes :=
  { rom := jsrTestRom, ram := (List.replicate 0x0800 0).set 0 0x02,
    cpu := Cpu.new, ppu := Ppu.new }

/-- Machine state with the same unknown opcode byte 0x02 at address
$0001 and pc = $0001: same opcode byte, different pc. -/
def c8nesB : Nes :=
  { rom := jsrTestRom, ram := (List.replicate 0x0800 0).set 1 0x02,
    cpu := { Cpu.new with pc := 1 }, ppu := Ppu.new }

/-- ROM fixture whose header carries the (unimplemented) mapper id 4. -/
def c9rom : Rom :=
  { header := { mapper := 4 }, prg_rom := [] }

theorem except_bind_ok {ε α β : Type} (a : α) (f : α → Except ε β) :
    (Except.ok a >>= f : Except ε β) = f a := rfl

theorem except_bind_error {ε α β : Type} (e : ε) (f : α → Except ε β) :
    (Except.error e >>= f : Except ε β) = Except.error e := rfl

theorem except_pure_eq_ok {ε α : Type} (a : α) :
    (pure a : Except ε α) = Except.ok a := rfl

theorem except_map_ok {ε α β : Type} (a : α) (f : α → β) :
    (Except.ok a : Except ε α).map f = Except.ok (f a) := rfl

theorem getD_set_self (l : List Nat) (i v : Nat) (h : i < l.length) :
    (l.set i v).getD i 0 = v := by
  rw [List.getD_eq_getElem?_getD]
  rw [List.getElem?_set_self (by simpa using h)]
  rfl

set_option maxRecDepth 10000 in
/-- C1: the claim asserts that a JSR step pushes the high byte of pc+2
to $0100|s and the low byte to $0100|((s-1) mod 256); on the claim's own
example (PRG `20 06 80 00 00 00 60`, reset vector $8000) the code instead
computes both stack addresses as `0x0100 AND s` = $0000, so after one
step s=$FB and pc=$8006 as claimed, but the bytes at $01FD and $01FC are
still 0 and the byte at $0000 is $02 (the low pushed byte, which
overwrote the high one). -/
theorem c1_jsr_pushes_to_address_zero :
    ((Nes.new_from_rom jsrTestRom).bind Nes.step).map
        (fun r => (r.1.cpu.s, r.1.cpu.pc, r.1.ram.getD 0x01FD 0,
                   r.1.ram.getD 0x01FC 0, r.1.ram.getD 0x0000 0))
      = .ok (0xFB, 0x8006, 0x00, 0x00, 0x02) := by decide

set_option maxRecDepth 10000 in
/-- C2 counterexample: the claim asserts that after any read of $2002
the scroll/addr latch is false. Reachable state: construct the machine
from `jsrTestRom` and write once to $2005, which sets the latch. The
$2002 read then succeeds (returning PPUSTATUS = 0), but `read_u8`
borrows the state immutably (`fn read_u8(&self, ...)`), so the latch is
still true afterwards, and for the same reason a set VBlank bit would
survive the read as well. -/
theorem c2_read2002_leaves_latch_set :
    ((Nes.new_from_rom jsrTestRom).bind
        (fun nes => nes.write_u8 0x2005 0x00)).map
        (fun nes => (nes.read_u8 0x2002, nes.ppu.scroll_addr_latch))
      = .ok (.ok 0x00, true) := by decide

/-- C2 (amended): reading $2002 returns the PPUSTATUS byte and has no
side effect at all — `Ppu::ppustatus` only returns `self.status.bits()`
and `Nes::read_u8` takes `&self`, so the VBlank bit and the
scroll/addr latch keep whatever value they had before the read. -/
theorem c2_read_ppustatus_no_side_effect (nes : Nes)
    (hm : nes.rom.header.mapper = 0) :
    nes.read_u8 0x2002 = .ok nes.ppu.ppustatus := by
  simp [Nes.read_u8, hm]

theorem c2_read_ppustatus_witness :
    zeroNes.read_u8 0x2002 = .ok zeroNes.ppu.ppustatus :=
  c2_read_ppustatus_no_side_effect zeroNes rfl

set_option maxRecDepth 10000 in
/-- C3: the claim asserts that with the latch initially false, writing
v1 then v2 to PPUSCROLL leaves scroll = (v2 <<< 8) ||| v1. On
v1 = 0x12, v2 = 0x34 starting from the reset PPU (latch false,
scroll 0): the first write leaves scroll at 0 (the source stores
`self.scroll as u16` back into the low byte instead of `value`), and
after both writes scroll = 0x3400, not 0x3412. The latch toggling
itself behaves as claimed (false again after the pair). -/
theorem c3_first_scroll_write_ignores_value :
    (((Ppu.new).write_ppuscroll 0x12).write_ppuscroll 0x34).scroll = 0x3400
    ∧ ((Ppu.new).write_ppuscroll 0x12).scroll = 0x00
    ∧ ((Ppu.new).write_ppuscroll 0x12).scroll_addr_latch = true
    ∧ (((Ppu.new).write_ppuscroll 0x12).write_ppuscroll 0x34).scroll_addr_latch
        = false := by decide

/-- C4: read_u16 returns the little-endian pair of read_u8 at addr and
at (addr + 1) mod 2^16 — the +1 is a u16 addition and wraps, so
read_u16($FFFF) combines the byte at $FFFF with the byte at $0000. -/
theorem c4_read_u16_little_endian_wrap (nes : Nes) (addr lo hi : Nat)
    (h1 : nes.read_u8 addr = .ok lo)
    (h2 : nes.read_u8 ((addr + 1) % 0x10000) = .ok hi) :
    nes.read_u16 addr = .ok (lo ||| (hi <<< 8)) := by
  rw [Nes.read_u16, h1, except_bind_ok, h2, except_bind_ok]
  rfl

theorem c4_read_u16_witness :
    c4Nes.read_u16 0xFFFF = .ok (0x07 ||| (0xAB <<< 8)) :=
  c4_read_u16_little_endian_wrap c4Nes 0xFFFF 0x07 0xAB
    (by decide) (by decide)

set_option maxRecDepth 10000 in
/-- C5 counterexample: the claim covers every address in $0000-$1FFF,
but the bus match only handles $0000-$07FF; at the mirror address $0800
the write (and any read) falls into the catch-all arm and fails the
emulator with an unhandled-write panic instead of storing and returning
the written value. -/
theorem c5_mirror_access_faults :
    ((Nes.new_from_rom jsrTestRom).bind
        (fun nes => (nes.write_u8 0x0800 0x42).bind
          (fun n2 => n2.read_u8 0x0800)))
      = .error (.unhandledWrite 0x0800) := by decide

theorem except_bindf_ok {ε α β : Type} (a : α) (f : α → Except ε β) :
    Except.bind (Except.ok a) f = f a := rfl

/-- C5 (amended): for addresses in $0000-$07FF only, writing v then
reading the same address returns v; accesses to the mirror range
$0800-$1FFF instead fail fatally with an unhandled-address panic. -/
theorem c5_ram_write_read_roundtrip (nes : Nes) (a v : Nat)
    (hm : nes.rom.header.mapper = 0) (ha : a ≤ 0x07FF)
    (hlen : nes.ram.length = 0x0800) :
    (nes.write_u8 a v).bind (fun n2 => n2.read_u8 a) = .ok v := by
  have hwrite : nes.write_u8 a v
      = .ok { nes with ram := nes.ram.set a v } := by
    simp [Nes.write_u8, hm, ha]
  rw [hwrite, except_bindf_ok]
  simp [Nes.read_u8, hm, ha]
  rw [List.getElem?_set_self (by omega)]
  rfl

theorem c5_ram_roundtrip_witness :
    (zeroNes.write_u8 0x0123 0x42).bind (fun n2 => n2.read_u8 0x0123)
      = .ok 0x42 :=
  c5_ram_write_read_roundtrip zeroNes 0x0123 0x42 rfl (by decide)
    (by rw [show zeroNes.ram = List.replicate 0x0800 0 from rfl]; exact List.length_replicate 0x0800 0)

theorem i16_wrap_add_mod (pa d : Nat) (hpa : pa < 0x10000) (hd : d < 0x100) :
    i16ToU16 (wrapI16 (toI16 pa + sextI8 d))
      = (((pa : Int) + sextI8 d) % 0x10000).toNat := by
  unfold i16ToU16 wrapI16 toI16 sextI8
  split <;> split <;> omega

/-- C6: whenever a conditional branch is taken — BEQ (0xF0) with Z set,
BNE (0xD0) with Z clear, BPL (0x10) with N clear — the pc after the step
equals (pc + 2 + sign-extension of the operand byte d) reduced modulo
2^16: the release-mode wrapping of the i16 intermediate composed with
the final cast to u16 agrees with two's-complement addition modulo 2^16
for every pc. -/
theorem c6_taken_branch_mod_2_16 (nes : Nes) (b d : Nat)
    (hb : nes.read_u8 nes.cpu.pc = .ok b)
    (hd : nes.read_u8 ((nes.cpu.pc + 1) % 0x10000) = .ok d)
    (hdbyte : d < 0x100)
    (htaken : (b = 0xF0 ∧ containsFlags nes.cpu.p CpuFlags.Z = true)
      ∨ (b = 0xD0 ∧ containsFlags nes.cpu.p CpuFlags.Z = false)
      ∨ (b = 0x10 ∧ containsFlags nes.cpu.p CpuFlags.N = false)) :
    (nes.step_cpu).map (fun r => r.1.cpu.pc)
      = .ok ((((nes.cpu.pc : Int) + 2 + sextI8 d) % 0x10000).toNat) := by
  have hmod : ((nes.cpu.pc + 2) % 0x10000 : Nat) < 0x10000 := by omega
  have key := i16_wrap_add_mod ((nes.cpu.pc + 2) % 0x10000) d hmod hdbyte
  have hs8 : -0x80 ≤ sextI8 d ∧ sextI8 d ≤ 0x7F := by
    unfold sextI8; split <;> omega
  have key2 : ((((nes.cpu.pc + 2) % 0x10000 : Nat) : Int) + sextI8 d) % 0x10000
      = ((nes.cpu.pc : Int) + 2 + sextI8 d) % 0x10000 := by
    omega
  rcases htaken with ⟨hb0, hcond⟩ | ⟨hb0, hcond⟩ | ⟨hb0, hcond⟩ <;>
    subst hb0 <;>
    simp [Nes.step_cpu, hb, Nes.read_i8, hd, hcond, Opcode.from_u8,
      except_bind_ok, except_pure_eq_ok, except_map_ok, key, key2]

theorem c6_taken_branch_witness :
    (c6nes.step_cpu).map (fun r => r.1.cpu.pc)
      = .ok ((((c6nes.cpu.pc : Int) + 2 + sextI8 0x02) % 0x10000).toNat) :=
  c6_taken_branch_mod_2_16 c6nes 0xF0 0x02 (by decide) (by decide)
    (by decide) (Or.inl ⟨rfl, by decide⟩)

/-- C7: a PPU step sets the VBlank bit (bit 7 of PPUSTATUS) exactly when
the frame cycle (cycle mod 89,342) equals 240 * 341 + 1 — scanline 240,
dot 1 — and at every other frame cycle it leaves the bit as it was (in
particular it never sets it): after a step the bit reads 1 iff it was
already 1 or the frame cycle was 240 * 341 + 1. -/
theorem c7_vblank_set_iff (nes : Nes) :
    ((Nes.step_ppu nes).ppu.status.testBit 7 = true) ↔
      (nes.ppu.status.testBit 7 = true
        ∨ nes.ppu.cycle % 89342 = 240 * 341 + 1) := by
  have hd := Nat.div_add_mod (nes.ppu.cycle % 89342) 341
  unfold Nes.step_ppu
  by_cases h : nes.ppu.cycle % 89342 / 341 = 240
      ∧ nes.ppu.cycle % 89342 % 341 = 1
  · have hfc : nes.ppu.cycle % 89342 = 240 * 341 + 1 := by omega
    simp [h, setBits, PpuStatusFlags.VBLANK_STARTED, Nat.testBit_lor, hfc]
    right
    decide
  · have hfc : nes.ppu.cycle % 89342 ≠ 240 * 341 + 1 := by omega
    simp [h, hfc]

set_option maxRecDepth 10000 in
/-- C8 counterexample: the claim asserts the failure diagnostic includes
both the offending pc and the byte. Two states that differ in pc (0x0000
versus 0x0001) but fetch the same unknown opcode byte 0x02 produce the
exact same error value — `Opcode::from_u8` panics with
`Unhandled opcode: 0x{:X}` which interpolates only the byte — so the
diagnostic cannot contain the pc. -/
theorem c8_same_diagnostic_different_pc :
    c8nesA.cpu.pc ≠ c8nesB.cpu.pc
    ∧ c8nesA.step_cpu = .error (.unhandledOpcode 0x02)
    ∧ c8nesB.step_cpu = .error (.unhandledOpcode 0x02) := by decide

/-- C8 (amended): for every opcode byte b outside the 19-entry decoder
table, a CPU step whose opcode fetch yields b fails the emulator at step
time with an unimplemented-opcode error whose diagnostic carries the
byte b (but not the pc). -/
theorem c8_unknown_opcode_fails (nes : Nes) (b : Nat)
    (hb : nes.read_u8 nes.cpu.pc = .ok b)
    (hnot : b ∉ ([0x10, 0x20, 0x29, 0x4C, 0x78, 0x84, 0x85, 0x88, 0x8D,
                  0x91, 0x9A, 0xA0, 0xA2, 0xA9, 0xAD, 0xC6, 0xD0, 0xD8,
                  0xF0] : List Nat)) :
    nes.step_cpu = .error (.unhandledOpcode b) := by
  simp only [List.mem_cons, List.not_mem_nil, or_false, not_or] at hnot
  obtain ⟨h1, h2, h3, h4, h5, h6, h7, h8, h9, h10, h11, h12, h13, h14,
    h15, h16, h17, h18, h19⟩ := hnot
  simp [Nes.step_cpu, hb, Opcode.from_u8, except_bind_ok,
    except_bind_error, h1, h2, h3, h4, h5, h6, h7, h8, h9, h10, h11,
    h12, h13, h14, h15, h16, h17, h18, h19]

set_option maxRecDepth 10000 in
theorem c8_unknown_opcode_witness :
    c8nesA.step_cpu = .error (.unhandledOpcode 0x02) :=
  c8_unknown_opcode_fails c8nesA 0x02 (by decide) (by decide)

theorem read_u8_bad_mapper (nes : Nes) (h : nes.rom.header.mapper ≠ 0)
    (addr : Nat) :
    nes.read_u8 addr = .error (.unhandledMapper nes.rom.header.mapper) := by
  simp [Nes.read_u8, h]

/-- C9: constructing the emulator from a ROM whose header carries a
nonzero mapper id fails with the unsupported-mapper error before any
instruction executes: `Nes::new_from_rom` reads the reset vector through
`read_u16`/`read_u8`, whose first action is the mapper guard, so the
construction itself returns the unhandled-mapper failure. -/
theorem c9_nonzero_mapper_fails_at_load (rom : Rom)
    (h : rom.header.mapper ≠ 0) :
    Nes.new_from_rom rom = .error (.unhandledMapper rom.header.mapper) := by
  simp only [Nes.new_from_rom, Nes.read_u16]
  rw [read_u8_bad_mapper _ h]
  rfl

theorem c9_nonzero_mapper_witness :
    Nes.new_from_rom c9rom = .error (.unhandledMapper 4) :=
  c9_nonzero_mapper_fails_at_load c9rom (by decide)

set_option maxRecDepth 10000 in
/-- C10 counterexample: the claim asserts writes to $8000-$FFFF are
no-ops on the PRG-ROM. Writing 0x42 to $8000 on the fixture machine
(whose PRG byte 0 is 0x20) changes `prg_rom[0]` to 0x42, and the
subsequent read of $8000 returns 0x42, not the original 0x20. -/
theorem c10_prg_write_not_noop :
    ((Nes.new_from_rom jsrTestRom).bind
        (fun nes => nes.write_u8 0x8000 0x42)).map
        (fun n2 => (n2.rom.prg_rom.getD 0 0, n2.read_u8 0x8000))
      = .ok (0x42, .ok 0x42)
    ∧ jsrTestRom.prg_rom.getD 0 0 = 0x20 := by decide

/-- C10 (amended): a write to $8000-$FFFF mutates the PRG-ROM in place:
it stores v at index (a - 0x8000) mod prg_rom.length, and a subsequent
read of the same address returns v instead of the original ROM byte. -/
theorem c10_prg_write_mutates (nes : Nes) (a v : Nat)
    (hm : nes.rom.header.mapper = 0) (ha1 : 0x8000 ≤ a)
    (ha2 : a ≤ 0xFFFF) (hlen : nes.rom.prg_rom.length ≠ 0) :
    (nes.write_u8 a v).map (fun n2 => n2.rom.prg_rom)
      = .ok (nes.rom.prg_rom.set ((a - 0x8000) % nes.rom.prg_rom.length) v)
    ∧ (nes.write_u8 a v).bind (fun n2 => n2.read_u8 a) = .ok v := by
  have h1 : ¬ a ≤ 0x07FF := by omega
  have h2 : a ≠ 0x2000 := by omega
  have h3 : a ≠ 0x2001 := by omega
  have h4 : a ≠ 0x2005 := by omega
  have h5 : a ≠ 0x2002 := by omega
  have hwrite : nes.write_u8 a v
      = .ok { nes with
              rom := { nes.rom with
                       prg_rom := nes.rom.prg_rom.set
                         ((a - 0x8000) % nes.rom.prg_rom.length) v } } := by
    simp [Nes.write_u8, hm, h1, h2, h3, h4, ha1, ha2]
  constructor
  · rw [hwrite, except_map_ok]
  · rw [hwrite, except_bindf_ok]
    simp [Nes.read_u8, hm, h1, h5, ha1, ha2]
    rw [List.getElem?_set_self (Nat.mod_lt _ (Nat.pos_of_ne_zero hlen))]
    rfl

set_option maxRecDepth 10000 in
theorem c10_prg_write_witness :
    (zeroNes.write_u8 0x8000 0x42).map (fun n2 => n2.rom.prg_rom)
      = .ok (zeroNes.rom.prg_rom.set
          ((0x8000 - 0x8000) % zeroNes.rom.prg_rom.length) 0x42)
    ∧ (zeroNes.write_u8 0x8000 0x42).bind (fun n2 => n2.read_u8 0x8000)
      = .ok 0x42 :=
  c10_prg_write_mutates zeroNes 0x8000 0x42 rfl (by decide) (by decide)
    (by decide)
